import Mathlib

/-
Verification of the server-monitor telemetry agent against its specification.

The development shallowly embeds the metric pipeline of the repository:
  - the CPU delta sampler (src/collectors/cpu.js: getCpuInfo, calculateCpuUsage,
    collectCpuMetrics and its module-level prevCpuInfo state),
  - the network delta sampler (src/collectors/network.js: calculateNetworkRates,
    collectNetworkMetrics and its module-level prevNetStats state),
  - the storage dispatch buffer (src/storage/index.js: storeMetrics,
    processMetricsBatch, flushMetrics and the module-level metricsBuffer),
  - the retention cleanup chain (src/index.js scheduledCleanup,
    src/storage/index.js cleanupOldMetrics, src/storage/postgresql.js
    cleanupOldMetrics).

JavaScript numbers are modelled as exact rationals extended with the IEEE
special values NaN and the two infinities, which the divisions in the source
can produce.  Module-level mutable state becomes explicit state passing: each
sampler step takes the previous state and returns the new one.  OS queries
(os.cpus, /sys counters) are modelled as inputs; a failing query is the none
case, matching the catch and fallback branches of the source.
-/

/-- JS number values reachable in the embedded code: NaN, the two infinities,
and finite values (kept exact as rationals). -/
inductive JsNum where
  | nan : JsNum
  | inf : JsNum
  | negInf : JsNum
  | num : ℚ → JsNum
deriving DecidableEq, Repr

namespace JsNum

/-- IEEE subtraction on the embedded JS values (negative zero is not
distinguished; no expression in the embedded code depends on it). -/
def sub : JsNum → JsNum → JsNum
  | nan, _ => nan
  | _, nan => nan
  | inf, inf => nan
  | inf, _ => inf
  | negInf, negInf => nan
  | negInf, _ => negInf
  | num _, inf => negInf
  | num _, negInf => inf
  | num a, num b => num (a - b)

/-- IEEE multiplication on the embedded JS values. -/
def mul : JsNum → JsNum → JsNum
  | nan, _ => nan
  | _, nan => nan
  | inf, inf => inf
  | inf, negInf => negInf
  | negInf, inf => negInf
  | negInf, negInf => inf
  | inf, num b => if b = 0 then nan else if 0 < b then inf else negInf
  | num a, inf => if a = 0 then nan else if 0 < a then inf else negInf
  | negInf, num b => if b = 0 then nan else if 0 < b then negInf else inf
  | num a, negInf => if a = 0 then nan else if 0 < a then negInf else inf
  | num a, num b => num (a * b)

/-- IEEE division on the embedded JS values: 0/0 is NaN, x/0 for x positive is
Infinity and for x negative is -Infinity (the zeros arising in the embedded
code are positive zeros). -/
def div : JsNum → JsNum → JsNum
  | nan, _ => nan
  | _, nan => nan
  | inf, inf => nan
  | inf, negInf => nan
  | negInf, inf => nan
  | negInf, negInf => nan
  | inf, num b => if 0 ≤ b then inf else negInf
  | negInf, num b => if 0 ≤ b then negInf else inf
  | num _, inf => num 0
  | num _, negInf => num 0
  | num a, num b =>
      if b = 0 then (if a = 0 then nan else if 0 < a then inf else negInf)
      else num (a / b)

/-- JS Math.round: rounds to the nearest integer, ties toward positive
infinity; NaN and the infinities pass through. -/
def round : JsNum → JsNum
  | nan => nan
  | inf => inf
  | negInf => negInf
  | num a => num (⌊a + 1 / 2⌋ : ℤ)

end JsNum

/-- Aggregated CPU times across all cores, one field per category of
cpu.times reported by Node (user, nice, sys, idle, irq).  getCpuInfo in
src/collectors/cpu.js sums each category over the cores; one value of this
structure is the result of one such read. -/
structure CpuInfo where
  user : ℚ
  nice : ℚ
  sys : ℚ
  idle : ℚ
  irq : ℚ
deriving DecidableEq, Repr

/-- Sum of all CPU time categories: Object.values(cpuInfo) reduced with
addition, as in calculateCpuUsage. -/
def CpuInfo.total (c : CpuInfo) : ℚ :=
  c.user + c.nice + c.sys + c.idle + c.irq

/-- calculateCpuUsage from src/collectors/cpu.js:
totalDiff = newTotal - oldTotal, idleDiff = new.idle - old.idle,
usagePercentage = 100 - (idleDiff / totalDiff * 100), then
Math.round(usagePercentage * 100) / 100.  The arithmetic is performed in the
embedded JS semantics, so a zero totalDiff yields NaN (0/0) exactly as the
source does: there is no guard. -/
def calculateCpuUsage (oldCpuInfo newCpuInfo : CpuInfo) : JsNum :=
  let oldTotal := oldCpuInfo.total
  let newTotal := newCpuInfo.total
  let totalDiff := newTotal - oldTotal
  let idleDiff := newCpuInfo.idle - oldCpuInfo.idle
  let usagePercentage :=
    JsNum.sub (JsNum.num 100)
      (JsNum.mul (JsNum.div (JsNum.num idleDiff) (JsNum.num totalDiff)) (JsNum.num 100))
  JsNum.div (JsNum.round (JsNum.mul usagePercentage (JsNum.num 100))) (JsNum.num 100)

/-- One tick of collectCpuMetrics from src/collectors/cpu.js, with the
module-level prevCpuInfo state passed explicitly.  osRead is the outcome of
reading os.cpus() this tick: none models the catch branch (the OS query
threw), in which the source returns usage 0 and leaves prevCpuInfo alone.
With a successful read, a null prevCpuInfo is seeded with the read and usage
0 is returned; otherwise usage is calculateCpuUsage of the previous and the
fresh read, and prevCpuInfo becomes the fresh read.  The result is the
returned usage value paired with the new prevCpuInfo state. -/
def collectCpuMetrics (prevCpuInfo : Option CpuInfo) (osRead : Option CpuInfo) :
    JsNum × Option CpuInfo :=
  match osRead with
  | none => (JsNum.num 0, prevCpuInfo)
  | some current =>
    match prevCpuInfo with
    | none => (JsNum.num 0, some current)
    | some old => (calculateCpuUsage old current, some current)

/-- Byte counters of the main interface as returned by getNetworkInfo in
src/collectors/network.js (the interface name is irrelevant to the claims). -/
structure NetInfo where
  rx : ℚ
  tx : ℚ
deriving DecidableEq, Repr

/-- The module-level prevNetStats record of src/collectors/network.js:
previous rx and tx counters and the capture timestamp in milliseconds. -/
structure PrevNetStats where
  rx : ℚ
  tx : ℚ
  timestamp : ℚ
deriving DecidableEq, Repr

/-- The initial value of prevNetStats: the module initializer
prevNetStats = (rx 0, tx 0, timestamp Date.now()), where Date.now() is the
module load instant.  Note the counters start at zero, not as a null
baseline. -/
def initialPrevNetStats (moduleLoadTime : ℚ) : PrevNetStats :=
  ⟨0, 0, moduleLoadTime⟩

/-- calculateNetworkRates from src/collectors/network.js with the
module-level prevNetStats passed explicitly and Date.now() passed as now:
elapsedMs = now - prev.timestamp, rates = counter delta / (elapsedMs / 1000),
and prevNetStats is unconditionally replaced by the current counters and now.
Returns ((rxRate, txRate), new prevNetStats). -/
def calculateNetworkRates (prevNetStats : PrevNetStats) (current : NetInfo) (now : ℚ) :
    (JsNum × JsNum) × PrevNetStats :=
  let elapsedMs := now - prevNetStats.timestamp
  let rxRate :=
    JsNum.div (JsNum.num (current.rx - prevNetStats.rx))
      (JsNum.div (JsNum.num elapsedMs) (JsNum.num 1000))
  let txRate :=
    JsNum.div (JsNum.num (current.tx - prevNetStats.tx))
      (JsNum.div (JsNum.num elapsedMs) (JsNum.num 1000))
  ((rxRate, txRate), ⟨current.rx, current.tx, now⟩)

/-- One tick of collectNetworkMetrics from src/collectors/network.js,
restricted to the rate computation.  osRead is the outcome of the OS counter
query inside getNetworkInfo: none models the failure path, in which
getNetworkInfo returns the fallback record with rx 0 and tx 0 (it does not
throw), and collectNetworkMetrics still calls calculateNetworkRates on that
fallback.  Returns ((rxRate, txRate), new prevNetStats). -/
def collectNetworkMetrics (prevNetStats : PrevNetStats) (osRead : Option NetInfo) (now : ℚ) :
    (JsNum × JsNum) × PrevNetStats :=
  let netInfo :=
    match osRead with
    | some info => info
    | none => (⟨0, 0⟩ : NetInfo)
  calculateNetworkRates prevNetStats netInfo now

/-- Snapshots are opaque to the dispatch layer (it only appends, copies and
forwards them); they are identified by natural numbers. -/
abbrev Metric := Nat

/-- Environment configuration read by the storage module and the scheduler.
Each Option Int field is the result of parseInt on the corresponding
environment variable, none standing for NaN (unset or non-numeric).  The
Bool fields are the results of the strict string comparisons with the text
true in the source. -/
structure StorageEnv where
  batchSizeRaw : Option Int
  apiEnabled : Bool
  dbEnabled : Bool
  cleanupDaysRaw : Option Int
deriving DecidableEq, Repr

/-- The expression parseInt(process.env.BATCH_SIZE) || 5 in storeMetrics:
NaN and 0 are falsy, so both fall back to 5; any other parsed integer is
used as is. -/
def StorageEnv.batchSize (env : StorageEnv) : Int :=
  match env.batchSizeRaw with
  | none => 5
  | some n => if n = 0 then 5 else n

/-- The body of the for loop of processMetricsBatch applied to a batch: for
each metric, the configured storage method is called (API first, then DB;
with neither enabled the item counts as a success without any call).  The
abstract sink gives the outcome of one storage call; a sink call that throws
behaves exactly like one returning false (the catch sets the success flag
and continues), so outcomes are Bool.  Returns the final success flag (true
only if every item succeeded) and the metrics passed to a sink, in call
order. -/
def processItems (env : StorageEnv) (sink : Metric → Bool) : List Metric → Bool × List Metric
  | [] => (true, [])
  | m :: rest =>
    let result :=
      if env.apiEnabled then sink m
      else if env.dbEnabled then sink m
      else true
    let calledSink := env.apiEnabled || env.dbEnabled
    let r := processItems env sink rest
    (result && r.1, (if calledSink then [m] else []) ++ r.2)

/-- processMetricsBatch from src/storage/index.js: an empty buffer returns
true immediately; otherwise the buffer contents are copied into
batchToProcess, the buffer is reset to empty, and the batch is processed
sequentially.  Returns (returned flag, metrics delivered to a sink in call
order, buffer contents afterwards). -/
def processMetricsBatch (env : StorageEnv) (sink : Metric → Bool) (metricsBuffer : List Metric) :
    Bool × List Metric × List Metric :=
  if metricsBuffer.length = 0 then (true, [], metricsBuffer)
  else
    let batchToProcess := metricsBuffer
    let r := processItems env sink batchToProcess
    (r.1, r.2, ([] : List Metric))

/-- Observable outcome of one storage-module call (or of a sequence of
them): the returned boolean, the metrics delivered to a sink in call order,
the number of processMetricsBatch invocations, and the buffer afterwards. -/
structure StoreResult where
  ret : Bool
  sinkCalls : List Metric
  flushCount : Nat
  buffer : List Metric
deriving DecidableEq, Repr

/-- storeMetrics from src/storage/index.js with the module-level
metricsBuffer passed explicitly.  A falsy metrics argument (null or
undefined, the none case) is rejected with false before touching the
buffer.  Otherwise the metric is appended; if the buffer length has reached
the batch size, processMetricsBatch runs synchronously and its result is
returned, else true is returned. -/
def storeMetrics (env : StorageEnv) (sink : Metric → Bool) (metricsBuffer : List Metric)
    (metrics : Option Metric) : StoreResult :=
  match metrics with
  | none => ⟨false, [], 0, metricsBuffer⟩
  | some m =>
    let buffer := metricsBuffer ++ [m]
    if env.batchSize ≤ (buffer.length : Int) then
      let r := processMetricsBatch env sink buffer
      ⟨r.1, r.2.1, 1, r.2.2⟩
    else ⟨true, [], 0, buffer⟩

/-- flushMetrics from src/storage/index.js simply runs processMetricsBatch
on the current buffer. -/
def flushMetrics (env : StorageEnv) (sink : Metric → Bool) (metricsBuffer : List Metric) :
    Bool × List Metric × List Metric :=
  processMetricsBatch env sink metricsBuffer

/-- A sequence of storeMetrics calls, one per listed metric, threading the
buffer through.  The combined outcome conjoins the returned flags,
concatenates the sink deliveries and sums the flush counts. -/
def runPushes (env : StorageEnv) (sink : Metric → Bool) :
    List Metric → List Metric → StoreResult
  | metricsBuffer, [] => ⟨true, [], 0, metricsBuffer⟩
  | metricsBuffer, m :: rest =>
    let r := storeMetrics env sink metricsBuffer (some m)
    let r2 := runPushes env sink r.buffer rest
    ⟨r.ret && r2.ret, r.sinkCalls ++ r2.sinkCalls, r.flushCount + r2.flushCount, r2.buffer⟩

/-- Pointwise combination used to state how runPushes splits over an
appended list of pushes. -/
def mergeResults (r1 r2 : StoreResult) : StoreResult :=
  ⟨r1.ret && r2.ret, r1.sinkCalls ++ r2.sinkCalls, r1.flushCount + r2.flushCount, r2.buffer⟩

/-- State of the dispatch buffer during a flush, for the interleaving
analysis of processMetricsBatch: buffer is the live metricsBuffer, pending
the remainder of batchToProcess not yet delivered, delivered the metrics
already handed to the sink in order, success the running success flag. -/
structure DispatchState where
  buffer : List Metric
  pending : List Metric
  delivered : List Metric
  success : Bool
deriving DecidableEq, Repr

/-- Events of the dispatch layer: a producer push (the append in
storeMetrics), the start of a flush (the two statements of
processMetricsBatch that copy metricsBuffer into batchToProcess and reset
metricsBuffer, which run back to back with no await between them), and the
delivery of the next pending item (one iteration of the sequential for
loop, whose await is the only point where other events can interleave). -/
inductive DispatchEvent where
  | push : Metric → DispatchEvent
  | startFlush : DispatchEvent
  | deliver : DispatchEvent
deriving DecidableEq, Repr

/-- One dispatch event acting on the dispatch state. -/
def dispatchStep (sink : Metric → Bool) (s : DispatchState) : DispatchEvent → DispatchState
  | DispatchEvent.push m => { s with buffer := s.buffer ++ [m] }
  | DispatchEvent.startFlush => { s with buffer := [], pending := s.buffer }
  | DispatchEvent.deliver =>
    match s.pending with
    | [] => s
    | m :: rest =>
      { s with pending := rest, delivered := s.delivered ++ [m],
               success := s.success && sink m }

/-- Run a list of dispatch events in order. -/
def runEvents (sink : Metric → Bool) : DispatchState → List DispatchEvent → DispatchState
  | s, [] => s
  | s, e :: rest => runEvents sink (dispatchStep sink s e) rest

/-- Number of deliver events in an event list. -/
def countDeliver : List DispatchEvent → Nat
  | [] => 0
  | DispatchEvent.deliver :: rest => countDeliver rest + 1
  | _ :: rest => countDeliver rest

/-- The metrics pushed by an event list, in order. -/
def pushedOf : List DispatchEvent → List Metric
  | [] => []
  | DispatchEvent.push m :: rest => m :: pushedOf rest
  | _ :: rest => pushedOf rest

/-- cleanupOldMetrics from src/storage/postgresql.js: the daysToKeep
parameter defaults to 30 when the function is called without an argument,
and that value is the horizon passed to the cleanup_old_metrics database
routine.  The embedding returns the horizon used. -/
def postgresqlCleanupOldMetrics (daysToKeep : Option Int) : Int :=
  daysToKeep.getD 30

/-- cleanupOldMetrics from src/storage/index.js: with the DB sink enabled it
calls the postgresql cleanupOldMetrics with no argument; otherwise no
cleanup runs (none).  Returns the horizon used by the cleanup, when one
runs. -/
def storageCleanupOldMetrics (env : StorageEnv) : Option Int :=
  if env.dbEnabled then some (postgresqlCleanupOldMetrics none) else none

/-- scheduledCleanup from src/index.js invokes the storage module
cleanupOldMetrics with no argument.  Returns the horizon used by the
cleanup run, when one runs. -/
def scheduledCleanup (env : StorageEnv) : Option Int :=
  storageCleanupOldMetrics env

/-- The CLEANUP_DAYS_TO_KEEP constant of src/index.js:
parseInt(process.env.CLEANUP_DAYS_TO_KEEP) || 30. -/
def CLEANUP_DAYS_TO_KEEP (env : StorageEnv) : Int :=
  match env.cleanupDaysRaw with
  | none => 30
  | some n => if n = 0 then 30 else n

/-
Helper lemmas.
-/

/-- Division of finite JS values with a nonzero divisor is exact rational
division. -/
lemma jsDiv_num_ne (a b : ℚ) (hb : b ≠ 0) :
    JsNum.div (JsNum.num a) (JsNum.num b) = JsNum.num (a / b) := by
  simp [JsNum.div, hb]

/-- With a nonzero elapsed time, calculateNetworkRates computes the exact
counter deltas divided by the elapsed seconds and replaces the previous
stats with the current capture. -/
lemma calculateNetworkRates_eq (prev : PrevNetStats) (cur : NetInfo) (now : ℚ)
    (h : now - prev.timestamp ≠ 0) :
    calculateNetworkRates prev cur now =
      ((JsNum.num ((cur.rx - prev.rx) / ((now - prev.timestamp) / 1000)),
        JsNum.num ((cur.tx - prev.tx) / ((now - prev.timestamp) / 1000))),
       ⟨cur.rx, cur.tx, now⟩) := by
  have hq : ((now - prev.timestamp) / 1000 : ℚ) ≠ 0 := div_ne_zero h (by norm_num)
  simp only [calculateNetworkRates]
  rw [jsDiv_num_ne (now - prev.timestamp) 1000 (by norm_num)]
  rw [jsDiv_num_ne (cur.rx - prev.rx) _ hq, jsDiv_num_ne (cur.tx - prev.tx) _ hq]

/-- The effective batch size is never zero: a parsed zero falls back to 5. -/
lemma batchSize_ne_zero (env : StorageEnv) : env.batchSize ≠ 0 := by
  unfold StorageEnv.batchSize
  cases env.batchSizeRaw with
  | none => simp
  | some n => by_cases hn : n = 0 <;> simp [hn]

/-- With a sink configured, processing a batch calls the sink once per item
in order and succeeds exactly when every call succeeded. -/
lemma processItems_enabled (env : StorageEnv) (sink : Metric → Bool)
    (h : env.apiEnabled = true ∨ env.dbEnabled = true) :
    ∀ l : List Metric, processItems env sink l = (l.all sink, l) := by
  intro l
  induction l with
  | nil => simp [processItems]
  | cons m rest ih =>
    rcases h with h | h
    · simp [processItems, h, ih, List.all_cons]
    · by_cases hapi : env.apiEnabled <;>
        simp [processItems, h, hapi, ih, List.all_cons]

/-- With no sink configured, processing a batch makes no sink call and
counts every item as a success. -/
lemma processItems_disabled (env : StorageEnv) (sink : Metric → Bool)
    (hapi : env.apiEnabled = false) (hdb : env.dbEnabled = false) :
    ∀ l : List Metric, processItems env sink l = (true, []) := by
  intro l
  induction l with
  | nil => rfl
  | cons m rest ih => simp [processItems, hapi, hdb, ih]

/-- Pushing while the buffer stays strictly below the batch size triggers no
flush: every push returns true and the metrics accumulate in order. -/
lemma runPushes_below (env : StorageEnv) (sink : Metric → Bool) :
    ∀ (ms metricsBuffer : List Metric),
      (metricsBuffer.length : Int) + ms.length < env.batchSize →
      runPushes env sink metricsBuffer ms = ⟨true, [], 0, metricsBuffer ++ ms⟩ := by
  intro ms
  induction ms with
  | nil =>
    intro buf h
    simp [runPushes]
  | cons m rest ih =>
    intro buf h
    have hlt : ((buf ++ [m]).length : Int) + rest.length < env.batchSize := by
      simp only [List.length_append, List.length_cons, List.length_nil] at h ⊢
      push_cast at h ⊢
      omega
    have hcond : ¬ env.batchSize ≤ ((buf ++ [m]).length : Int) := by
      simp only [List.length_append, List.length_cons, List.length_nil] at h ⊢
      push_cast at h ⊢
      omega
    have hstep : storeMetrics env sink buf (some m) = ⟨true, [], 0, buf ++ [m]⟩ := by
      simp only [storeMetrics]
      rw [if_neg hcond]
    simp only [runPushes]
    simp [hstep, ih (buf ++ [m]) hlt, List.append_assoc]

/-- runPushes splits over an appended list of pushes. -/
lemma runPushes_append (env : StorageEnv) (sink : Metric → Bool) :
    ∀ (l1 l2 metricsBuffer : List Metric),
      runPushes env sink metricsBuffer (l1 ++ l2) =
        mergeResults (runPushes env sink metricsBuffer l1)
          (runPushes env sink (runPushes env sink metricsBuffer l1).buffer l2) := by
  intro l1
  induction l1 with
  | nil =>
    intro l2 buf
    have hid : ∀ r : StoreResult, mergeResults ⟨true, [], 0, buf⟩ r = r := by
      intro r; cases r; simp [mergeResults]
    simp [runPushes, hid]
  | cons m rest ih =>
    intro l2 buf
    simp only [List.cons_append, runPushes, List.append_eq]
    rw [ih l2 ((storeMetrics env sink buf (some m)).buffer)]
    simp [mergeResults, Bool.and_assoc, List.append_assoc, Nat.add_assoc]

/-- Running dispatch events that contain no flush start: deliveries consume
the pending batch in order and pushes append to the live buffer. -/
lemma runEvents_no_startFlush (sink : Metric → Bool) :
    ∀ (evs : List DispatchEvent) (s : DispatchState), DispatchEvent.startFlush ∉ evs →
      (runEvents sink s evs).delivered = s.delivered ++ s.pending.take (countDeliver evs) ∧
      (runEvents sink s evs).pending = s.pending.drop (countDeliver evs) ∧
      (runEvents sink s evs).buffer = s.buffer ++ pushedOf evs := by
  intro evs
  induction evs with
  | nil => intro s h; simp [runEvents, countDeliver, pushedOf]
  | cons e rest ih =>
    intro s h
    have hrest : DispatchEvent.startFlush ∉ rest := by
      intro hx; exact h (List.mem_cons_of_mem _ hx)
    have he : e ≠ DispatchEvent.startFlush := by
      intro hx; exact h (hx ▸ List.mem_cons_self _ _)
    cases e with
    | push m =>
      have hstep := ih (dispatchStep sink s (DispatchEvent.push m)) hrest
      simp only [dispatchStep] at hstep
      simp only [runEvents, dispatchStep, countDeliver, pushedOf]
      simpa [List.append_assoc] using hstep
    | startFlush => exact absurd rfl he
    | deliver =>
      cases hp : s.pending with
      | nil =>
        have hstep := ih (dispatchStep sink s DispatchEvent.deliver) hrest
        simp only [dispatchStep, hp] at hstep
        simp only [runEvents, dispatchStep, hp, countDeliver, pushedOf]
        simpa [hp] using hstep
      | cons p ps =>
        have hstep := ih (dispatchStep sink s DispatchEvent.deliver) hrest
        simp only [dispatchStep, hp] at hstep
        simp only [runEvents, dispatchStep, hp, countDeliver, pushedOf]
        simpa [hp, List.append_assoc] using hstep

/-
Claim theorems.
-/

/-- Claim C1, counterexample: starting from the initial prevNetStats of the
module (counters 0, timestamp at module load, here 0 ms), the first network
sample with counters rx 2000 and tx 1000 captured at 1000 ms returns rxRate
2000 bytes per second, not 0: the first network sample after initialization
is not the zero baseline the claim requires. -/
theorem firstNetworkSample_nonzero_cex :
    ((collectNetworkMetrics (initialPrevNetStats 0) (some ⟨2000, 1000⟩) 1000).1).1 ≠
      JsNum.num 0 := by
  norm_num [collectNetworkMetrics, calculateNetworkRates, initialPrevNetStats, JsNum.div]

/-- Claim C1, amended: the first CPU sample returns usage 0 (never an
error) and seeds prevCpuInfo, so the second CPU sample is the delta of the
first and second captures only; the network sampler starts from the
baseline of zero counters at the module load instant, so its first sample
returns the raw counters divided by the seconds since module load (zero
only when the counters are zero) rather than 0, and it seeds prevNetStats
with the first capture, so the second network sample reflects only the
delta between the first and second capture instants. -/
theorem firstSamples_baseline_seed (cur cur2 : CpuInfo) (net1 net2 : NetInfo)
    (t0 t1 t2 : ℚ) (h1 : t1 - t0 ≠ 0) (h2 : t2 - t1 ≠ 0) :
    collectCpuMetrics none (some cur) = (JsNum.num 0, some cur) ∧
    collectCpuMetrics (collectCpuMetrics none (some cur)).2 (some cur2) =
      (calculateCpuUsage cur cur2, some cur2) ∧
    collectNetworkMetrics (initialPrevNetStats t0) (some net1) t1 =
      ((JsNum.num (net1.rx / ((t1 - t0) / 1000)),
        JsNum.num (net1.tx / ((t1 - t0) / 1000))),
       ⟨net1.rx, net1.tx, t1⟩) ∧
    collectNetworkMetrics (collectNetworkMetrics (initialPrevNetStats t0) (some net1) t1).2
        (some net2) t2 =
      ((JsNum.num ((net2.rx - net1.rx) / ((t2 - t1) / 1000)),
        JsNum.num ((net2.tx - net1.tx) / ((t2 - t1) / 1000))),
       ⟨net2.rx, net2.tx, t2⟩) := by
  refine ⟨rfl, rfl, ?_, ?_⟩
  · have hfirst := calculateNetworkRates_eq (initialPrevNetStats t0) net1 t1
      (by simpa [initialPrevNetStats] using h1)
    simpa [collectNetworkMetrics, initialPrevNetStats] using hfirst
  · have hseed : (collectNetworkMetrics (initialPrevNetStats t0) (some net1) t1).2 =
        (⟨net1.rx, net1.tx, t1⟩ : PrevNetStats) := rfl
    rw [hseed]
    have hsecond := calculateNetworkRates_eq ⟨net1.rx, net1.tx, t1⟩ net2 t2 (by simpa using h2)
    simpa [collectNetworkMetrics] using hsecond

/-- Witness for C1 at concrete inputs: module load at 0 ms, first capture
(rx 2000, tx 1000) at 1000 ms gives rates 2000 and 1000 bytes per second
and seeds the state; second capture (rx 3000, tx 1500) at 2000 ms gives
rates 1000 and 500 bytes per second, the delta since the first capture. -/
theorem firstSamples_baseline_seed_inst :
    collectCpuMetrics none (some ⟨1, 0, 0, 1, 0⟩) = (JsNum.num 0, some ⟨1, 0, 0, 1, 0⟩) ∧
    collectNetworkMetrics (initialPrevNetStats 0) (some ⟨2000, 1000⟩) 1000 =
      ((JsNum.num 2000, JsNum.num 1000), ⟨2000, 1000, 1000⟩) ∧
    collectNetworkMetrics (⟨2000, 1000, 1000⟩ : PrevNetStats) (some ⟨3000, 1500⟩) 2000 =
      ((JsNum.num 1000, JsNum.num 500), ⟨3000, 1500, 2000⟩) := by
  obtain ⟨ha, -, hc, hd⟩ := firstSamples_baseline_seed ⟨1, 0, 0, 1, 0⟩ ⟨1, 0, 0, 1, 0⟩
    ⟨2000, 1000⟩ ⟨3000, 1500⟩ 0 1000 2000 (by norm_num) (by norm_num)
  have hseed : (collectNetworkMetrics (initialPrevNetStats 0) (some ⟨2000, 1000⟩) 1000).2 =
      (⟨2000, 1000, 1000⟩ : PrevNetStats) := rfl
  rw [hseed] at hd
  refine ⟨ha, hc.trans ?_, hd.trans ?_⟩ <;> norm_num

/-- Claim C2, evaluation at the failing input: two identical consecutive
CPU readings make every per-category delta zero, so totalDelta is zero and
calculateCpuUsage computes 100 - (0 / 0 * 100), which is NaN — not the 0
the claim requires, and not a value in the range 0 to 100. -/
theorem calculateCpuUsage_zeroTotalDelta_nan :
    calculateCpuUsage ⟨1, 0, 0, 1, 0⟩ ⟨1, 0, 0, 1, 0⟩ = JsNum.nan := by
  norm_num [calculateCpuUsage, CpuInfo.total, JsNum.div, JsNum.mul, JsNum.sub, JsNum.round]

/-- Claim C3: from an empty buffer with a sink configured, pushing exactly
batchSize snapshots triggers exactly one flush, which delivers all
batchSize snapshots to the sink in push order and leaves the buffer empty,
while pushing only the first batchSize - 1 of them triggers no flush,
returns true for every push, delivers nothing, and leaves them buffered in
order. -/
theorem push_batchSize_single_flush (env : StorageEnv) (sink : Metric → Bool)
    (ms : List Metric) (hlen : (ms.length : Int) = env.batchSize)
    (hsink : env.apiEnabled = true ∨ env.dbEnabled = true) :
    runPushes env sink [] ms = ⟨ms.all sink, ms, 1, []⟩ ∧
    runPushes env sink [] ms.dropLast = ⟨true, [], 0, ms.dropLast⟩ := by
  have hbs : env.batchSize ≠ 0 := batchSize_ne_zero env
  have hne : ms ≠ [] := by
    intro h0
    apply hbs
    rw [← hlen, h0]
    simp
  have hlp : 0 < ms.length := List.length_pos.mpr hne
  have hdrop : runPushes env sink [] ms.dropLast = ⟨true, [], 0, ms.dropLast⟩ := by
    have hb : ((([] : List Metric)).length : Int) + (ms.dropLast).length < env.batchSize := by
      simp only [List.length_nil, List.length_dropLast]
      push_cast [hlp]
      omega
    have := runPushes_below env sink ms.dropLast [] hb
    simpa using this
  refine ⟨?_, hdrop⟩
  have hsplit : ms.dropLast ++ [ms.getLast hne] = ms := List.dropLast_append_getLast hne
  have hcond : env.batchSize ≤ ((ms.dropLast ++ [ms.getLast hne]).length : Int) := by
    rw [hsplit, hlen]
  have hpmb : processMetricsBatch env sink (ms.dropLast ++ [ms.getLast hne]) =
      (ms.all sink, ms, []) := by
    rw [hsplit]
    simp only [processMetricsBatch]
    rw [if_neg (List.length_pos.mpr hne).ne']
    rw [processItems_enabled env sink hsink ms]
  have hstore : storeMetrics env sink ms.dropLast (some (ms.getLast hne)) =
      ⟨ms.all sink, ms, 1, []⟩ := by
    simp only [storeMetrics]
    rw [if_pos hcond, hpmb]
  have hsingle : runPushes env sink ms.dropLast [ms.getLast hne] =
      ⟨ms.all sink, ms, 1, []⟩ := by
    simp only [runPushes]
    simp [hstore]
  have happ := runPushes_append env sink ms.dropLast [ms.getLast hne] []
  rw [hsplit] at happ
  rw [happ, hdrop]
  have hbuf : (⟨true, [], 0, ms.dropLast⟩ : StoreResult).buffer = ms.dropLast := rfl
  rw [hbuf, hsingle]
  simp [mergeResults]

/-- Witness for C3: with the default batch size 5 and the API sink enabled,
pushing 1..5 flushes once delivering all five in order; pushing only 1..4
flushes nothing and buffers them. -/
theorem push_batchSize_single_flush_inst :
    runPushes ⟨none, true, false, none⟩ (fun _ => true) [] [1, 2, 3, 4, 5] =
      ⟨List.all [1, 2, 3, 4, 5] (fun _ => true), [1, 2, 3, 4, 5], 1, []⟩ ∧
    runPushes ⟨none, true, false, none⟩ (fun _ => true) []
        (List.dropLast [1, 2, 3, 4, 5]) =
      ⟨true, [], 0, List.dropLast [1, 2, 3, 4, 5]⟩ :=
  push_batchSize_single_flush ⟨none, true, false, none⟩ (fun _ => true)
    [1, 2, 3, 4, 5] (by decide) (Or.inl rfl)

/-- Claim C4: the flush swaps the buffer out atomically at its start:
however pushes and deliveries interleave after the swap, the delivered
metrics are exactly a prefix of the swapped-out batch in push order (all of
it once every item has been delivered), the still-pending items are the
rest of that batch, and the pushes arriving after the swap sit in the fresh
buffer in arrival order — never in the batch being flushed. -/
theorem flush_atomic_swap_fifo (sink : Metric → Bool) (batch : List Metric)
    (evs : List DispatchEvent) (h : DispatchEvent.startFlush ∉ evs) :
    (runEvents sink ⟨batch, [], [], true⟩ (DispatchEvent.startFlush :: evs)).delivered =
        batch.take (countDeliver evs) ∧
    (runEvents sink ⟨batch, [], [], true⟩ (DispatchEvent.startFlush :: evs)).pending =
        batch.drop (countDeliver evs) ∧
    (runEvents sink ⟨batch, [], [], true⟩ (DispatchEvent.startFlush :: evs)).buffer =
        pushedOf evs := by
  have hstart : runEvents sink ⟨batch, [], [], true⟩ (DispatchEvent.startFlush :: evs) =
      runEvents sink ⟨[], batch, [], true⟩ evs := rfl
  rw [hstart]
  have := runEvents_no_startFlush sink evs ⟨[], batch, [], true⟩ h
  simpa using this

/-- Witness for C4: batch of 10 and 20 swapped out; a push of 99 between
the two deliveries ends up in the fresh buffer while both batch items are
delivered in order. -/
theorem flush_atomic_swap_fifo_inst :
    (runEvents (fun _ => true) ⟨[10, 20], [], [], true⟩
      (DispatchEvent.startFlush ::
        [DispatchEvent.deliver, DispatchEvent.push 99, DispatchEvent.deliver])).delivered =
      [10, 20] ∧
    (runEvents (fun _ => true) ⟨[10, 20], [], [], true⟩
      (DispatchEvent.startFlush ::
        [DispatchEvent.deliver, DispatchEvent.push 99, DispatchEvent.deliver])).pending =
      [] ∧
    (runEvents (fun _ => true) ⟨[10, 20], [], [], true⟩
      (DispatchEvent.startFlush ::
        [DispatchEvent.deliver, DispatchEvent.push 99, DispatchEvent.deliver])).buffer =
      [99] := by
  have h := flush_atomic_swap_fifo (fun _ => true) [10, 20]
    [DispatchEvent.deliver, DispatchEvent.push 99, DispatchEvent.deliver] (by decide)
  exact ⟨h.1.trans (by decide), h.2.1.trans (by decide), h.2.2.trans (by decide)⟩

/-- Claim C5: with a sink configured, a flush attempts delivery of every
batch item in push order — a failure of one item never prevents the
attempts for the later items — and the flush returns true exactly when
every item succeeded, false as soon as at least one failed. -/
theorem batch_continue_after_failure (env : StorageEnv) (sink : Metric → Bool)
    (batch : List Metric) (hsink : env.apiEnabled = true ∨ env.dbEnabled = true) :
    processMetricsBatch env sink batch = (batch.all sink, batch, ([] : List Metric)) := by
  simp only [processMetricsBatch]
  by_cases h0 : batch.length = 0
  · have hb : batch = [] := List.length_eq_zero.mp h0
    subst hb
    simp
  · rw [if_neg h0, processItems_enabled env sink hsink batch]

/-- Witness for C5 at the scenario of the spec: a batch of five where items
2 and 4 fail is still delivered in full, in order, and the flush reports
false. -/
theorem batch_continue_after_failure_inst :
    processMetricsBatch ⟨none, true, false, none⟩ (fun m => !(m == 2 || m == 4))
      [1, 2, 3, 4, 5] = (false, [1, 2, 3, 4, 5], []) := by
  have h := batch_continue_after_failure ⟨none, true, false, none⟩
    (fun m => !(m == 2 || m == 4)) [1, 2, 3, 4, 5] (Or.inl rfl)
  exact h.trans (by decide)

/-- Claim C6, counterexample: a network tick whose OS query fails (the
getNetworkInfo fallback) does not leave the previous-counter state
unchanged: starting from baseline (rx 500, tx 600, t 0), a failed tick at
1000 ms overwrites it with the fallback zero counters. -/
theorem netPrev_updated_on_failure_cex :
    (collectNetworkMetrics ⟨500, 600, 0⟩ none 1000).2 ≠ (⟨500, 600, 0⟩ : PrevNetStats) := by
  norm_num [collectNetworkMetrics, calculateNetworkRates]

/-- Claim C6, amended: the CPU sampler updates prevCpuInfo only at the end
of a successful sample and never on a failed one (a failed tick leaves the
CPU delta baseline unchanged); the network sampler instead updates
prevNetStats at the end of every sample, including failed ones, on which
the fallback zero counters and the current time overwrite the baseline. -/
theorem samplerState_update_policy (prevC : Option CpuInfo) (cur : CpuInfo)
    (prevN : PrevNetStats) (info : NetInfo) (now : ℚ) :
    collectCpuMetrics prevC none = (JsNum.num 0, prevC) ∧
    (collectCpuMetrics prevC (some cur)).2 = some cur ∧
    (collectNetworkMetrics prevN none now).2 = (⟨0, 0, now⟩ : PrevNetStats) ∧
    (collectNetworkMetrics prevN (some info) now).2 =
      (⟨info.rx, info.tx, now⟩ : PrevNetStats) := by
  refine ⟨rfl, ?_, rfl, rfl⟩
  cases prevC <;> rfl

/-- Claim C7: any non-first network sample computes rxRate and txRate as
the counter deltas divided by the wall-clock seconds elapsed since the
previous capture instant, with negative deltas passed through unchanged
(the formula is the plain signed quotient, never clamped), and replaces the
previous stats with the current capture. -/
theorem networkRates_delta_formula (prev : PrevNetStats) (cur : NetInfo) (now : ℚ)
    (h : now - prev.timestamp ≠ 0) :
    calculateNetworkRates prev cur now =
      ((JsNum.num ((cur.rx - prev.rx) / ((now - prev.timestamp) / 1000)),
        JsNum.num ((cur.tx - prev.tx) / ((now - prev.timestamp) / 1000))),
       ⟨cur.rx, cur.tx, now⟩) :=
  calculateNetworkRates_eq prev cur now h

/-- Witness for C7 at the concrete scenario of the spec: prev rx 1000
captured at 0 ms, current rx 3000 at 2000 ms gives rxRate 1000 bytes per
second; a tx counter reset from 500 to 100 gives the negative rate -200,
passed through unclamped. -/
theorem networkRates_delta_formula_inst :
    calculateNetworkRates ⟨1000, 500, 0⟩ ⟨3000, 100⟩ 2000 =
      ((JsNum.num 1000, JsNum.num (-200)), ⟨3000, 100, 2000⟩) := by
  have h := networkRates_delta_formula ⟨1000, 500, 0⟩ ⟨3000, 100⟩ 2000 (by norm_num)
  exact h.trans (by norm_num)

/-- Claim C8, evaluation at the failing configuration: with the DB sink
enabled and CLEANUP_DAYS_TO_KEEP set to 7, the scheduled cleanup still runs
with the 30-day default horizon, because the storage module calls the
postgresql cleanupOldMetrics without passing the configured value. -/
theorem cleanup_horizon_ignores_config :
    scheduledCleanup ⟨none, false, true, some 7⟩ = some 30 ∧
    CLEANUP_DAYS_TO_KEEP ⟨none, false, true, some 7⟩ = 7 := by
  decide

/-- Claim C9: with neither the API sink nor the DB sink enabled, pushing a
snapshot returns true with no sink call, and flushing any buffer (a full
batch included) returns true with no sink call: the not-configured case is
success, never an error. -/
theorem no_sink_noop_success (env : StorageEnv) (sink : Metric → Bool)
    (metricsBuffer : List Metric) (m : Metric)
    (hapi : env.apiEnabled = false) (hdb : env.dbEnabled = false) :
    (storeMetrics env sink metricsBuffer (some m)).ret = true ∧
    (storeMetrics env sink metricsBuffer (some m)).sinkCalls = [] ∧
    (processMetricsBatch env sink metricsBuffer).1 = true ∧
    (processMetricsBatch env sink metricsBuffer).2.1 = [] := by
  have hpmb : ∀ buf : List Metric, (processMetricsBatch env sink buf).1 = true ∧
      (processMetricsBatch env sink buf).2.1 = [] := by
    intro buf
    simp only [processMetricsBatch]
    by_cases h0 : buf.length = 0
    · simp [h0]
    · simp [h0, processItems_disabled env sink hapi hdb]
  refine ⟨?_, ?_, (hpmb metricsBuffer).1, (hpmb metricsBuffer).2⟩ <;>
  · simp only [storeMetrics]
    by_cases hc : env.batchSize ≤ ((metricsBuffer ++ [m]).length : Int)
    · rw [if_pos hc]
      simp [(hpmb (metricsBuffer ++ [m])).1, (hpmb (metricsBuffer ++ [m])).2]
    · rw [if_neg hc]

/-- Witness for C9: with both sinks disabled, pushing 3 onto a buffer
holding 7 returns true with no sink call, and flushing that buffer returns
true with no sink call. -/
theorem no_sink_noop_success_inst :
    (storeMetrics ⟨none, false, false, none⟩ (fun _ => false) [7] (some 3)).ret = true ∧
    (storeMetrics ⟨none, false, false, none⟩ (fun _ => false) [7] (some 3)).sinkCalls = [] ∧
    (processMetricsBatch ⟨none, false, false, none⟩ (fun _ => false) [7]).1 = true ∧
    (processMetricsBatch ⟨none, false, false, none⟩ (fun _ => false) [7]).2.1 = [] :=
  no_sink_noop_success ⟨none, false, false, none⟩ (fun _ => false) [7] 3 rfl rfl

/-- Claim C10: a null or undefined snapshot is rejected atomically:
storeMetrics returns false, delivers nothing to any sink, triggers no
flush, and leaves the dispatch buffer exactly as it was. -/
theorem null_push_rejected (env : StorageEnv) (sink : Metric → Bool)
    (metricsBuffer : List Metric) :
    storeMetrics env sink metricsBuffer none = ⟨false, [], 0, metricsBuffer⟩ := rfl
